import Mathlib

/-!
Verification of the live state synchronization client in
`src/components/MindVectorPanel/MindVectorGraph.tsx` (SAGATI).

The component's runtime values are JSON-like JavaScript values; the event
handlers of the component are embedded as a step function over an explicit
component state, driven by external events (mount, socket open/message/
close/error, timers, fetch settlement).  Finite JavaScript numbers are
modelled by `Int` — the component performs no arithmetic on dimension
values, it only zero-tests them (truthiness, the coercions of
`Number(x) || 0` and `Number(x ?? 0)`) and passes them through, so the
integer subset of the finite doubles is a faithful carrier — and the
non-finite doubles NaN and plus/minus Infinity, which `Number()` coercions
and overflowing `JSON.parse` literals can produce, are the explicit values
`JVal.nan`, `JVal.inf` and `JVal.ninf`.
-/

/-- A JSON-like JavaScript runtime value.  `undefined` models `undefined`
(absent property); `nan`, `inf` and `ninf` model the non-finite doubles NaN
and plus/minus Infinity, which reach the component through `Number()`
coercions and through `JSON.parse` of an overflowing numeric literal such
as `1e999`.  Finite numbers are carried by `Int`: the component performs no
arithmetic on values, it only zero-tests and forwards them, so the integer
subset is a faithful carrier for the finite doubles. -/
inductive JVal where
  | undefined
  | null
  | bool (b : Bool)
  | num (x : Int)
  | nan
  | inf
  | ninf
  | str (s : String)
  | arr (elems : List JVal)
  | obj (fields : List (String × JVal))

/-- Property access `v.k` (also the optional chaining `v?.k` used on the
parsed payload): a field of an object, `undefined` otherwise. -/
def jget (v : JVal) (k : String) : JVal :=
  match v with
  | .obj fields => (fields.lookup k).getD .undefined
  | _ => .undefined

/-- JavaScript truthiness: `undefined`, `null`, `false`, `0`, NaN and the
empty string are falsy; every other value, including the infinities, `[]`
and an empty object, is truthy. -/
def truthy (v : JVal) : Bool :=
  match v with
  | .undefined => false
  | .null => false
  | .bool b => b
  | .num x => x != 0
  | .nan => false
  | .inf => true
  | .ninf => true
  | .str s => s != ""
  | .arr _ => true
  | .obj _ => true

/-- The JavaScript `a || b`. -/
def jor (a b : JVal) : JVal :=
  if truthy a then a else b

/-- The JavaScript nullish coalescing `a ?? b`. -/
def jnullish (a b : JVal) : JVal :=
  match a with
  | .undefined => b
  | .null => b
  | _ => a

/-- Whether a value is `null` or `undefined`: property access on such a
value throws. -/
def isNullish : JVal → Bool
  | .null => true
  | .undefined => true
  | _ => false

/-- Decimal digit run for the string-to-number coercion. -/
def parseDigits : List Char → Nat → Option Nat
  | [], acc => some acc
  | c :: cs, acc =>
      if c.isDigit then parseDigits cs (acc * 10 + (c.toNat - 48)) else none

/-- Leading and trailing whitespace removed. -/
def trimChars (l : List Char) : List Char :=
  ((l.dropWhile Char.isWhitespace).reverse.dropWhile Char.isWhitespace).reverse

/-- JavaScript `Number(string)` on the modelled domain: an all-whitespace
string is 0, an optionally signed `Infinity` is the matching infinity, an
optionally signed run of decimal digits is that integer, every other
string is NaN.  (Fractional, hex and exponent-form literals fall outside
the modelled string domain and are mapped to NaN, since their exact value
depends on double rounding; the infinities an overflowing exponent literal
produces are representable directly as `JVal.inf` and `JVal.ninf`, which
is how `JSON.parse` delivers them.) -/
def strToNumber (s : String) : JVal :=
  if trimChars s.data = "Infinity".data then .inf
  else if trimChars s.data = "+Infinity".data then .inf
  else if trimChars s.data = "-Infinity".data then .ninf
  else match trimChars s.data with
  | [] => .num 0
  | c :: cs =>
      if c = '-' then
        match cs, parseDigits cs 0 with
        | _ :: _, some n => .num (-(n : Int))
        | _, _ => .nan
      else if c = '+' then
        match cs, parseDigits cs 0 with
        | _ :: _, some n => .num (n : Int)
        | _, _ => .nan
      else
        match parseDigits (c :: cs) 0 with
        | some n => .num (n : Int)
        | none => .nan

/-- JavaScript `Number(v)`.  Arrays coerce through their string form; the
model keeps the two exact cases (`[]` is 0, a one-number array is that
number) and sends other aggregates to NaN. -/
def jsToNumber (v : JVal) : JVal :=
  match v with
  | .undefined => .nan
  | .null => .num 0
  | .bool b => .num (if b then 1 else 0)
  | .num x => .num x
  | .nan => .nan
  | .inf => .inf
  | .ninf => .ninf
  | .str s => strToNumber s
  | .arr [] => .num 0
  | .arr [.num x] => .num x
  | .arr [.inf] => .inf
  | .arr [.ninf] => .ninf
  | .arr _ => .nan
  | .obj _ => .nan

/-- `Number(d.value) || 0` from `normalizeToRadarData` (line 47): the
coerced number itself when it is truthy (nonzero, non-NaN — the infinities
included), otherwise 0.  The result is a JavaScript number: `.num x`,
`.inf` or `.ninf`; it is not always finite. -/
def coerceVal (v : JVal) : JVal :=
  if truthy (jsToNumber v) then jsToNumber v else .num 0

/-- Codepoint-lexicographic comparison of character lists; the model of the
comparator `(a, b) => a.name.localeCompare(b.name)` used with a default
locale. -/
def charsLe : List Char → List Char → Bool
  | [], _ => true
  | _ :: _, [] => false
  | a :: as, b :: bs =>
      if a < b then true else if b < a then false else charsLe as bs

/-- String comparison for the dimension sort. -/
def strLe (a b : String) : Bool :=
  charsLe a.data b.data

/-- An entry of `vector.dimensions` on the domain where
`normalizeToRadarData` does not throw: the `name` field is a string, the
`value` field is any value. -/
structure RawDim where
  name : String
  value : JVal

/-- An entry of the Recharts radar data produced by `normalizeToRadarData`:
the subject is the dimension name, the value the JavaScript number
`Number(value) || 0`. -/
structure RadarDatum where
  subject : String
  value : JVal

instance : DecidableRel (fun a b : RawDim => strLe a.name b.name = true) :=
  fun a b => inferInstanceAs (Decidable (strLe a.name b.name = true))

/-- `normalizeToRadarData` (lines 38-49): copy the dimensions, sort them by
name, and map each to a radar datum with the value coerced by
`Number(d.value) || 0`.  `List.insertionSort` stands in for the stable
comparator sort of `Array.prototype.sort`. -/
def normalizeToRadarData (dims : List RawDim) : List RadarDatum :=
  (List.insertionSort (fun a b : RawDim => strLe a.name b.name = true) dims).map
    (fun d => { subject := d.name, value := coerceVal d.value })

/-- A mind vector as the component stores it (lines 99-104 and 157-166):
the fields are taken from the payload unnormalized, so they are arbitrary
runtime values. -/
structure MindVector where
  timestamp : JVal
  dimensions : JVal
  visualState : JVal
  emoji : JVal

/-- `[vector, ...h].slice(0, 50)` from both `setHistory` updaters (lines
108 and 170): insert at the front, keep at most the first 50 entries.  The
operation is element-agnostic, so it is stated polymorphically and used at
`MindVector`. -/
def histAppend {α : Type} (vector : α) (h : List α) : List α :=
  (vector :: h).take 50

/-- The component's props that the protocol logic reads (lines 25-33). -/
structure Config where
  websocketUrl : Option String
  walletAddress : Option String
  fetchApiUrl : Option String

/-- `DEFAULT_POLLING_INTERVAL` (line 35). -/
def DEFAULT_POLLING_INTERVAL : Nat := 15000

/-- Lifecycle of the single tracked WebSocket: no socket yet, constructor
called (CONNECTING), open event delivered, `close()` called but the close
event not yet delivered (CLOSING), close event delivered (CLOSED). -/
inductive WsSt where
  | noSocket
  | connecting
  | opened
  | closing
  | closed
deriving DecidableEq

/-- The component's state together with its observable output: `sent` logs
outbound WebSocket messages, `updates` logs the `onUpdate` subscriber
invocations, both oldest first. -/
structure CompState where
  current : Option MindVector
  history : List MindVector
  statusMessage : String
  mounted : Bool
  wsSt : WsSt
  pollingActive : Bool
  reconnectPending : Bool
  inFlight : Nat
  sent : List JVal
  updates : List MindVector

/-- The state before the mount effect runs (lines 69-74): `useState(null)`,
`useState([])`, `useRef(true)`, `useState("Initializing…")`. -/
def initState : CompState :=
  { current := none
    history := []
    statusMessage := "Initializing…"
    mounted := true
    wsSt := .noSocket
    pollingActive := false
    reconnectPending := false
    inFlight := 0
    sent := []
    updates := [] }

/-- The subscribe handshake built on the open event (line 90):
`JSON.stringify({ type: "subscribe", topic: "mindVector", wallet })`,
kept structured. -/
def subscribeMsg (wallet : String) : JVal :=
  .obj [("type", .str "subscribe"), ("topic", .str "mindVector"),
        ("wallet", .str wallet)]

/-- The keep-alive reply (line 115): `JSON.stringify({ type: "pong" })`. -/
def pongMsg : JVal :=
  .obj [("type", .str "pong")]

/-- `connectWebSocket` (lines 76-140) up to its first suspension: guard on
the two props, construct the socket, set the connecting status.  The event
handlers the callback attaches are the `wsOpen`/`wsMessage`/`wsClose`/
`wsError` transitions below. -/
def connectWebSocket (cfg : Config) (s : CompState) : CompState :=
  match cfg.websocketUrl, cfg.walletAddress with
  | some _, some _ =>
      { s with wsSt := .connecting
               statusMessage := "Connecting to live updates…" }
  | _, _ =>
      { s with statusMessage :=
          "No WebSocket configured or wallet unspecified — using HTTP fallback." }

/-- `fetchOnce` (lines 142-179) up to its first suspension: guard on the
two props, set the fetching status and issue the request.  The settlement
of the request is the `fetchResolve`/`fetchReject` transition below. -/
def fetchOnceStart (cfg : Config) (s : CompState) : CompState :=
  match cfg.fetchApiUrl, cfg.walletAddress with
  | some _, some _ =>
      { s with statusMessage := "Fetching mind vector via HTTP…"
               inFlight := s.inFlight + 1 }
  | _, _ =>
      { s with statusMessage := "No HTTP endpoint configured." }

/-- `ws.addEventListener("open", ...)` (lines 87-92): on a socket in the
CONNECTING state, set the subscribing status and send the handshake. -/
def wsOpenStep (cfg : Config) (s : CompState) : CompState :=
  match s.wsSt with
  | .connecting =>
      { s with wsSt := .opened
               statusMessage := "Connected. Subscribing to mind vector updates…"
               sent := s.sent ++ [subscribeMsg (cfg.walletAddress.getD "")] }
  | _ => s

/-- The `===` test against a string literal. -/
def isStr (v : JVal) (s : String) : Bool :=
  match v with
  | .str t => t == s
  | _ => false

/-- `ws.addEventListener("message", ...)` (lines 94-121) for a message whose
`evt.data` parses to `payload`; `now` is the ISO string of the ingestion
time used when the payload carries no truthy timestamp.  An update payload
builds the vector, and behind the `mountedRef` guard stores it, appends it
to the history, invokes `onUpdate` and sets the Live status; a ping payload
is answered with a pong; anything else is ignored. -/
def wsMessageStep (s : CompState) (payload : JVal) (now : String) : CompState :=
  match s.wsSt with
  | .opened =>
      if isStr (jget payload "type") "mindVectorUpdate" &&
          truthy (jget payload "data") then
        let data := jget payload "data"
        let vector : MindVector :=
          { timestamp := jor (jget data "timestamp") (.str now)
            dimensions := jor (jget data "dimensions") (.arr [])
            visualState := jget data "visualState"
            emoji := jget data "emoji" }
        if s.mounted then
          { s with current := some vector
                   history := histAppend vector s.history
                   updates := s.updates ++ [vector]
                   statusMessage := "Live" }
        else s
      else if isStr (jget payload "type") "ping" then
        { s with sent := s.sent ++ [pongMsg] }
      else s
  | _ => s

/-- `ws.addEventListener("close", ...)` (lines 123-129): set the fallback
status message and schedule a reconnect attempt in 5000 ms.  The handler
has no `mountedRef` guard of its own; only the scheduled callback checks
the flag. -/
def wsCloseStep (s : CompState) : CompState :=
  match s.wsSt with
  | .noSocket => s
  | .closed => s
  | _ =>
      { s with wsSt := .closed
               statusMessage := "WebSocket closed. Falling back to HTTP."
               reconnectPending := true }

/-- `ws.addEventListener("error", ...)` (lines 131-135): set the error
status and call `ws.close()`; the close event then follows as its own
transition. -/
def wsErrorStep (s : CompState) : CompState :=
  match s.wsSt with
  | .connecting =>
      { s with wsSt := .closing
               statusMessage := "WebSocket error. Using HTTP fallback." }
  | .opened =>
      { s with wsSt := .closing
               statusMessage := "WebSocket error. Using HTTP fallback." }
  | _ => s

/-- The reconnect timeout firing (lines 126-128): if the component is still
mounted, call `connectWebSocket` again. -/
def reconnectStep (cfg : Config) (s : CompState) : CompState :=
  if s.reconnectPending then
    let s2 := { s with reconnectPending := false }
    if s2.mounted then connectWebSocket cfg s2 else s2
  else s

/-- One firing of the `window.setInterval(() => fetchOnce(), ...)` poll
timer (lines 192-194): it calls `fetchOnce` unconditionally, with no check
that an earlier request has settled. -/
def pollTickStep (cfg : Config) (s : CompState) : CompState :=
  if s.pollingActive then fetchOnceStart cfg s else s

/-- One element of `data.vector.map((v) => ({ name: v.name || v.label ||
"dim", value: Number(v.value ?? 0) }))` (line 162).  Property access on
`null` or `undefined` throws, which the surrounding `try` catches: `none`
models that exception. -/
def mapVecElem (v : JVal) : Option JVal :=
  match v with
  | .null => none
  | .undefined => none
  | _ => some (.obj
      [("name", jor (jget v "name") (jor (jget v "label") (.str "dim"))),
       ("value", jsToNumber (jnullish (jget v "value") (.num 0)))])

/-- The `data.vector.map(...)` traversal; an exception on any element
aborts the whole of `fetchOnce`. -/
def mapVecList : List JVal → Option (List JVal)
  | [] => some []
  | v :: vs =>
      match mapVecElem v, mapVecList vs with
      | some d, some ds => some (d :: ds)
      | _, _ => none

/-- `data.dimensions || (data.vector ? data.vector.map(...) : [])` (lines
159-163): the dimensions value stored by the fetch path.  Calling `.map`
on a truthy non-array throws (`none`). -/
def fetchDims (data : JVal) : Option JVal :=
  let d := jget data "dimensions"
  if truthy d then some d
  else
    let v := jget data "vector"
    if truthy v then
      match v with
      | .arr l => (mapVecList l).map .arr
      | _ => none
    else some (.arr [])

/-- The external events the component reacts to.  `now` carries the ISO
string `new Date().toISOString()` would produce at that moment.
`fetchResolve` is the settlement of one in-flight request with the
response's `ok` flag, status code and parsed JSON body; `fetchReject`
is a network error or a body that fails to parse; `wsBadMessage` is a
WebSocket message whose `evt.data` is not valid JSON. -/
inductive Event where
  | mount
  | unmount
  | wsOpen
  | wsMessage (payload : JVal) (now : String)
  | wsBadMessage
  | wsClose
  | wsError
  | reconnectTimer
  | pollTick
  | fetchResolve (ok : Bool) (code : Nat) (body : JVal) (now : String)
  | fetchReject

/-- Whether an event is the mount effect running. -/
def isMount : Event → Bool
  | .mount => true
  | _ => false

/-- The settlement of one in-flight `fetchOnce` request (lines 150-178).
A non-ok response sets the failure status (before the `mountedRef` guard);
an ok response is normalized and, behind the guard, stored, appended and
broadcast.  A `null` (or, unreachably for parsed JSON, `undefined`) body
throws already at the `data.timestamp` access, and a normalization
exception in the `vector` mapping throws too; both fall to the `catch`,
which sets the error status and stores nothing. -/
def fetchResolveStep (s : CompState) (ok : Bool) (code : Nat) (body : JVal)
    (now : String) : CompState :=
  if s.inFlight = 0 then s
  else
    let s2 := { s with inFlight := s.inFlight - 1 }
    if ok then
      if isNullish body then { s2 with statusMessage := "HTTP error" }
      else match fetchDims body with
      | none => { s2 with statusMessage := "HTTP error" }
      | some dims =>
        let vector : MindVector :=
          { timestamp := jor (jget body "timestamp") (.str now)
            dimensions := dims
            visualState := jget body "visualState"
            emoji := jget body "emoji" }
        if s2.mounted then
          { s2 with current := some vector
                    history := histAppend vector s2.history
                    updates := s2.updates ++ [vector]
                    statusMessage := "HTTP OK" }
        else s2
    else { s2 with statusMessage := "HTTP fetch failed: " ++ toString code }

/-- A network failure of one in-flight request: the `catch` sets the error
status (line 177), with no `mountedRef` guard. -/
def fetchRejectStep (s : CompState) : CompState :=
  if s.inFlight = 0 then s
  else { s with inFlight := s.inFlight - 1, statusMessage := "HTTP error" }

/-- The mount effect (lines 182-198): set the liveness flag, then prefer
the WebSocket; else start an immediate fetch and the poll interval; else
report that no data source is configured. -/
def mountStep (cfg : Config) (s : CompState) : CompState :=
  let s2 := { s with mounted := true }
  match cfg.websocketUrl, cfg.walletAddress with
  | some _, some _ => connectWebSocket cfg s2
  | _, _ =>
    match cfg.fetchApiUrl, cfg.walletAddress with
    | some _, some _ => { (fetchOnceStart cfg s2) with pollingActive := true }
    | _, _ =>
      { s2 with statusMessage :=
          "No data source configured (websocketUrl or fetchApiUrl required)." }

/-- Modelled from the spec: the effect's cleanup function is missing from
the repository snapshot (`MindVectorGraph.tsx` ends mid-`return` at line
199), so `dispose()` follows §4.5 of the spec — it closes any open push
connection, cancels any pending poll timer and any pending reconnection
timer — and clears the liveness flag that the retained handlers (lines 105
and 167) consult.  Closing the socket makes the browser deliver its close
event afterwards, so a CONNECTING/OPEN socket moves to CLOSING here and
the still-attached close handler runs on the later `wsClose` event. -/
def unmountStep (s : CompState) : CompState :=
  { s with mounted := false
           pollingActive := false
           reconnectPending := false
           wsSt := match s.wsSt with
             | .connecting => .closing
             | .opened => .closing
             | w => w }

/-- One reaction of the component to one external event. -/
def step (cfg : Config) (s : CompState) : Event → CompState
  | .mount => mountStep cfg s
  | .unmount => unmountStep s
  | .wsOpen => wsOpenStep cfg s
  | .wsMessage payload now => wsMessageStep s payload now
  | .wsBadMessage => s
  | .wsClose => wsCloseStep s
  | .wsError => wsErrorStep s
  | .reconnectTimer => reconnectStep cfg s
  | .pollTick => pollTickStep cfg s
  | .fetchResolve ok code body now => fetchResolveStep s ok code body now
  | .fetchReject => fetchRejectStep s

/-- The component state after a sequence of external events. -/
def run (cfg : Config) (events : List Event) : CompState :=
  events.foldl (step cfg) initState

/-- A configuration with both transports and a wallet. -/
def cfgWs : Config :=
  { websocketUrl := some "wss://api.sagati.com/ws"
    walletAddress := some "w1"
    fetchApiUrl := some "https://api.sagati.com/mindvector" }

/-- A configuration with only the HTTP transport and a wallet. -/
def cfgPoll : Config :=
  { websocketUrl := none
    walletAddress := some "w1"
    fetchApiUrl := some "https://api.sagati.com/mindvector" }

/-- Totality of the codepoint comparison. -/
theorem charsLe_total : ∀ (a b : List Char), charsLe a b = true ∨ charsLe b a = true
  | [], _ => Or.inl rfl
  | _ :: _, [] => Or.inr rfl
  | a :: as, b :: bs => by
      by_cases h1 : a < b
      · exact Or.inl (by simp [charsLe, h1])
      · by_cases h2 : b < a
        · exact Or.inr (by simp [charsLe, h2])
        · rcases charsLe_total as bs with h | h
          · exact Or.inl (by simp [charsLe, h1, h2, h])
          · exact Or.inr (by simp [charsLe, h1, h2, h])

/-- Unfolding of the codepoint comparison on two nonempty lists. -/
theorem charsLe_cons (a b : Char) (as bs : List Char) :
    charsLe (a :: as) (b :: bs) = true ↔ a < b ∨ (a = b ∧ charsLe as bs = true) := by
  by_cases h1 : a < b
  · simp [charsLe, h1]
  · by_cases h2 : b < a
    · simp only [charsLe, if_neg h1, if_pos h2]
      constructor
      · intro h; exact absurd h (by simp)
      · rintro (h | ⟨rfl, _⟩)
        · exact absurd h h1
        · exact absurd h2 (lt_irrefl a)
    · have hab : a = b := le_antisymm (not_lt.mp h2) (not_lt.mp h1)
      simp [charsLe, if_neg h1, if_neg h2, hab]

/-- Transitivity of the codepoint comparison. -/
theorem charsLe_trans : ∀ (a b c : List Char),
    charsLe a b = true → charsLe b c = true → charsLe a c = true
  | [], _, _ => fun _ _ => rfl
  | _ :: _, [], _ => fun h _ => by simp [charsLe] at h
  | _ :: _, _ :: _, [] => fun _ h => by simp [charsLe] at h
  | a :: as, b :: bs, c :: cs => fun h1 h2 => by
      rcases (charsLe_cons a b as bs).mp h1 with hlt | ⟨rfl, hrec1⟩
      · rcases (charsLe_cons b c bs cs).mp h2 with hlt2 | ⟨rfl, _⟩
        · exact (charsLe_cons a c as cs).mpr (Or.inl (lt_trans hlt hlt2))
        · exact (charsLe_cons a b as cs).mpr (Or.inl hlt)
      · rcases (charsLe_cons a c bs cs).mp h2 with hlt2 | ⟨rfl, hrec2⟩
        · exact (charsLe_cons a c as cs).mpr (Or.inl hlt2)
        · exact (charsLe_cons a a as cs).mpr
            (Or.inr ⟨rfl, charsLe_trans as bs cs hrec1 hrec2⟩)

instance : IsTotal RawDim (fun a b => strLe a.name b.name = true) :=
  ⟨fun a b => charsLe_total a.name.data b.name.data⟩

instance : IsTrans RawDim (fun a b => strLe a.name b.name = true) :=
  ⟨fun _ _ _ h1 h2 => charsLe_trans _ _ _ h1 h2⟩

/-- C1 (amended): for every dimension list accepted by the normalizer, the
radar data is sorted ascending by name and is, up to the sort's
permutation, exactly the input with each value replaced by
`Number(value) || 0` — NaN-coercing (non-numeric) inputs and 0 become 0 —
but duplicate names are preserved, not removed, and the values are not
always finite: the string `Infinity` (and the infinities an overflowing
JSON literal parses to) pass the `|| 0` coercion unchanged. -/
theorem normalize_sorted_coerced (dims : List RawDim) :
    List.Sorted (fun a b : RadarDatum => strLe a.subject b.subject = true)
      (normalizeToRadarData dims) ∧
    (normalizeToRadarData dims).Perm
      (dims.map fun d => { subject := d.name, value := coerceVal d.value }) ∧
    (∀ v : JVal, jsToNumber v = JVal.nan → coerceVal v = JVal.num 0) ∧
    coerceVal (JVal.str "Infinity") = JVal.inf ∧
    coerceVal JVal.inf = JVal.inf ∧ coerceVal JVal.ninf = JVal.ninf := by
  refine ⟨?_, ?_, ?_, rfl, rfl, rfl⟩
  · show List.Pairwise _ _
    rw [normalizeToRadarData, List.pairwise_map]
    exact List.sorted_insertionSort _ dims
  · exact List.Perm.map _ (List.perm_insertionSort _ dims)
  · intro v hv
    rw [coerceVal, hv]
    rfl

/-- C1 witness: a non-numeric string coerces to NaN and hence to 0. -/
theorem normalize_sorted_coerced_witness :
    jsToNumber (JVal.str "x") = JVal.nan ∧
    coerceVal (JVal.str "x") = JVal.num 0 :=
  ⟨rfl, (normalize_sorted_coerced []).2.2.1 (JVal.str "x") rfl⟩

/-- C1 counterexample: a payload with two dimensions named `a` and one
whose value is the string `Infinity` is accepted; both `a` entries survive
normalization, so the canonical vector contains duplicate names, and the
third value is Infinity, which is no finite number. -/
theorem normalize_duplicate_names_counterexample :
    normalizeToRadarData [⟨"a", JVal.num 1⟩, ⟨"a", JVal.num 2⟩,
        ⟨"b", JVal.str "Infinity"⟩] =
      [⟨"a", JVal.num 1⟩, ⟨"a", JVal.num 2⟩, ⟨"b", JVal.inf⟩] ∧
    ¬ (List.map RadarDatum.subject
        (normalizeToRadarData [⟨"a", JVal.num 1⟩, ⟨"a", JVal.num 2⟩,
          ⟨"b", JVal.str "Infinity"⟩])).Nodup ∧
    (∀ x : Int, JVal.inf ≠ JVal.num x) :=
  ⟨rfl, by decide, fun x h => JVal.noConfusion h⟩

/-- The history buffer never holds more than 50 entries. -/
theorem histAppend_length_le {α : Type} (v : α) (h : List α) :
    (histAppend v h).length ≤ 50 := by
  rw [histAppend, List.length_take]
  exact inf_le_left

/-- Truncating the right summand before a truncated append changes
nothing. -/
theorem take_append_take {α : Type} (n : Nat) (a b : List α) :
    (a ++ b.take n).take n = (a ++ b).take n := by
  rw [List.take_append_eq_append_take, List.take_append_eq_append_take,
    List.take_take, inf_eq_left.mpr (Nat.sub_le n a.length)]

/-- Appending a sequence of vectors to a buffer already within capacity
leaves the reversed sequence in front of the old buffer, truncated to the
capacity. -/
theorem foldl_histAppend {α : Type} :
    ∀ (l : List α) (h0 : List α), h0.length ≤ 50 →
      List.foldl (fun acc w => histAppend w acc) h0 l = (l.reverse ++ h0).take 50
  | [], h0, hle => by
      simpa using (List.take_of_length_le hle).symm
  | v :: l, h0, hle => by
      have ih := foldl_histAppend l (histAppend v h0) (histAppend_length_le v h0)
      calc List.foldl (fun acc w => histAppend w acc) h0 (v :: l)
          = List.foldl (fun acc w => histAppend w acc) (histAppend v h0) l := rfl
        _ = (l.reverse ++ (v :: h0).take 50).take 50 := ih
        _ = (l.reverse ++ (v :: h0)).take 50 := take_append_take 50 _ _
        _ = ((v :: l).reverse ++ h0).take 50 := by
              rw [List.reverse_cons, List.append_assoc]; rfl

/-- C2: the history buffer's length never exceeds 50, every accepted vector
lands at the front, and after 51 appends into an initially empty buffer the
first-appended vector has been evicted. -/
theorem history_buffer_bounded {α : Type} (v : α) (h : List α)
    (l : List α) (v0 : α) (h51 : l.length = 51) (hhead : l.head? = some v0)
    (hnotin : v0 ∉ l.tail) :
    (histAppend v h).length ≤ 50 ∧ (histAppend v h).head? = some v ∧
      v0 ∉ List.foldl (fun acc w => histAppend w acc) [] l := by
  refine ⟨histAppend_length_le v h, rfl, ?_⟩
  obtain ⟨t, rfl⟩ : ∃ t, l = v0 :: t := by
    cases l with
    | nil => simp at hhead
    | cons a t =>
        refine ⟨t, ?_⟩
        have : a = v0 := by simpa using hhead
        rw [this]
  have ht : t.length = 50 := by simpa using h51
  rw [foldl_histAppend (v0 :: t) [] (by simp), List.append_nil,
    List.reverse_cons, List.take_left' (by simpa using ht)]
  simpa using hnotin

/-- C2 witness: 51 appends of 0, 1, …, 50 into an empty buffer leave 50
entries, newest first, with the first-appended 0 evicted. -/
theorem history_buffer_bounded_witness :
    ((List.range 51).length = 51 ∧ (List.range 51).head? = some 0 ∧
      0 ∉ (List.range 51).tail) ∧
    ((histAppend 7 [1, 2, 3]).length ≤ 50 ∧
      (histAppend 7 [1, 2, 3]).head? = some 7 ∧
      0 ∉ List.foldl (fun acc w => histAppend w acc) [] (List.range 51)) :=
  ⟨⟨by decide, by decide, by decide⟩,
    history_buffer_bounded 7 [1, 2, 3] (List.range 51) 0
      (by decide) (by decide) (by decide)⟩

/-- Preservation lemma for C3: with both transports configured, no step
ever activates polling or issues a fetch. -/
theorem step_no_poll (s : CompState) (e : Event)
    (h1 : s.pollingActive = false) (h2 : s.inFlight = 0) :
    (step cfgWs s e).pollingActive = false ∧ (step cfgWs s e).inFlight = 0 := by
  cases e with
  | mount => simp [step, mountStep, cfgWs, connectWebSocket, h1, h2]
  | unmount => simp [step, unmountStep, h2]
  | wsOpen => cases hws : s.wsSt <;> simp [step, wsOpenStep, hws, h1, h2]
  | wsMessage payload now =>
      cases hws : s.wsSt <;> simp only [step, wsMessageStep, hws] <;>
        (try split) <;> (try split) <;> exact ⟨h1, h2⟩
  | wsBadMessage => exact ⟨h1, h2⟩
  | wsClose => cases hws : s.wsSt <;> simp [step, wsCloseStep, hws, h1, h2]
  | wsError => cases hws : s.wsSt <;> simp [step, wsErrorStep, hws, h1, h2]
  | reconnectTimer =>
      simp only [step, reconnectStep]
      split <;> [skip; exact ⟨h1, h2⟩]
      split <;> simp [connectWebSocket, cfgWs, h1, h2]
  | pollTick => simp [step, pollTickStep, h1, h2]
  | fetchResolve ok code body now => simp [step, fetchResolveStep, h2, h1]
  | fetchReject => simp [step, fetchRejectStep, h2, h1]

/-- C3: with both the push and the poll transport configured, a close of
the push socket sets the fallback status message and schedules only a push
reconnect; the polling channel is never started on any event sequence —
`pollingActive` stays false and no fetch is ever in flight — contradicting
both the claim and the code's own fallback messages. -/
theorem ws_close_no_polling_fallback :
    ((run cfgWs [Event.mount, Event.wsClose]).statusMessage =
        "WebSocket closed. Falling back to HTTP." ∧
      (run cfgWs [Event.mount, Event.wsClose]).reconnectPending = true) ∧
    ∀ evs : List Event,
      (run cfgWs evs).pollingActive = false ∧ (run cfgWs evs).inFlight = 0 := by
  refine ⟨⟨rfl, rfl⟩, ?_⟩
  intro evs
  rw [run]
  induction evs using List.reverseRecOn with
  | nil => exact ⟨rfl, rfl⟩
  | append_singleton l e ih =>
      rw [List.foldl_append, List.foldl_cons, List.foldl_nil]
      exact step_no_poll _ e ih.1 ih.2

/-- Push-path half of C5: a push message that is not an update — not an
object, wrong or missing `type`, or falsy `data` — leaves the current
vector, the history, the subscriber log and the status unchanged (a ping
additionally sends a pong). -/
theorem ws_ignores_nonupdate (s : CompState) (payload : JVal) (now : String)
    (hnot : (isStr (jget payload "type") "mindVectorUpdate" &&
        truthy (jget payload "data")) = false) :
    (wsMessageStep s payload now).current = s.current ∧
    (wsMessageStep s payload now).history = s.history ∧
    (wsMessageStep s payload now).updates = s.updates ∧
    (wsMessageStep s payload now).statusMessage = s.statusMessage := by
  cases hws : s.wsSt
  case opened =>
    simp only [wsMessageStep, hws, hnot, Bool.false_eq_true, if_false]
    split <;> simp
  all_goals simp [wsMessageStep, hws]

/-- An update payload whose `data` object carries no dimensions at all. -/
def emptyUpdatePayload : JVal :=
  .obj [("type", .str "mindVectorUpdate"), ("data", .obj [])]

/-- The vector the fetch path stores for a body with no truthy
`dimensions` and no truthy `vector` field. -/
def emptyDimsVector (body : JVal) (now : String) : MindVector :=
  { timestamp := jor (jget body "timestamp") (JVal.str now)
    dimensions := JVal.arr []
    visualState := jget body "visualState"
    emoji := jget body "emoji" }

/-- C5 counterexample: payloads yielding zero dimensions are not rejected
on either channel.  On the push path an update payload with an empty data
object is stored as a vector with empty dimensions, the history grows and
the subscriber callback fires; on the poll path even the non-object body
`5` is accepted the same way — though normalization of empty dimensions is
empty. -/
theorem zero_dims_accepted_counterexample :
    (run cfgWs [Event.mount, Event.wsOpen,
        Event.wsMessage emptyUpdatePayload "t0"]).current =
      some { timestamp := JVal.str "t0", dimensions := JVal.arr [],
             visualState := JVal.undefined, emoji := JVal.undefined } ∧
    (run cfgWs [Event.mount, Event.wsOpen,
        Event.wsMessage emptyUpdatePayload "t0"]).history.length = 1 ∧
    (run cfgWs [Event.mount, Event.wsOpen,
        Event.wsMessage emptyUpdatePayload "t0"]).updates.length = 1 ∧
    (run cfgPoll [Event.mount,
        Event.fetchResolve true 200 (JVal.num 5) "t1"]).current =
      some { timestamp := JVal.str "t1", dimensions := JVal.arr [],
             visualState := JVal.undefined, emoji := JVal.undefined } ∧
    (run cfgPoll [Event.mount,
        Event.fetchResolve true 200 (JVal.num 5) "t1"]).history.length = 1 ∧
    (run cfgPoll [Event.mount,
        Event.fetchResolve true 200 (JVal.num 5) "t1"]).updates.length = 1 ∧
    normalizeToRadarData [] = [] :=
  ⟨rfl, by decide, by decide, rfl, by decide, by decide, rfl⟩

/-- C5 (amended): a push payload that is not an update message — every
non-object payload included — is ignored with no state change at all; but
there is no MalformedPayload rejection of zero-dimension or non-object
bodies on the poll path: any non-null response body without a truthy
`dimensions` or `vector` field is stored as an empty-dimension vector,
appended to history and broadcast, and only a `null` body — whose property
access throws during normalization — is dropped with the HTTP-error status
and no store, no history entry and no callback. -/
theorem payload_rejection_behavior :
    (∀ (s : CompState) (payload : JVal) (now : String),
      (isStr (jget payload "type") "mindVectorUpdate" &&
          truthy (jget payload "data")) = false →
      (wsMessageStep s payload now).current = s.current ∧
      (wsMessageStep s payload now).history = s.history ∧
      (wsMessageStep s payload now).updates = s.updates ∧
      (wsMessageStep s payload now).statusMessage = s.statusMessage) ∧
    (∀ (s : CompState) (code : Nat) (body : JVal) (now : String),
      s.inFlight ≠ 0 → s.mounted = true → isNullish body = false →
      truthy (jget body "dimensions") = false →
      truthy (jget body "vector") = false →
      fetchResolveStep s true code body now =
        { s with inFlight := s.inFlight - 1
                 current := some (emptyDimsVector body now)
                 history := histAppend (emptyDimsVector body now) s.history
                 updates := s.updates ++ [emptyDimsVector body now]
                 statusMessage := "HTTP OK" }) ∧
    (∀ (s : CompState) (code : Nat) (now : String),
      s.inFlight ≠ 0 →
      fetchResolveStep s true code JVal.null now =
        { s with inFlight := s.inFlight - 1
                 statusMessage := "HTTP error" }) := by
  refine ⟨fun s payload now hnot => ws_ignores_nonupdate s payload now hnot,
    ?_, ?_⟩
  · intro s code body now hnf hm hnull hd hv
    have hfd : fetchDims body = some (JVal.arr []) := by
      simp [fetchDims, hd, hv]
    simp only [fetchResolveStep, hnull, Bool.false_eq_true, if_false, hfd,
      hm, emptyDimsVector]
    rw [if_neg hnf]
    simp
  · intro s code now hnf
    simp only [fetchResolveStep]
    rw [if_neg hnf]
    rfl

/-- C5 witness: the non-object push payload `"hello"` changes nothing on
an open socket; the non-object poll body `5` is stored as an
empty-dimension vector; a `null` poll body only sets the error status. -/
theorem payload_rejection_behavior_witness :
    ((isStr (jget (JVal.str "hello") "type") "mindVectorUpdate" &&
        truthy (jget (JVal.str "hello") "data")) = false ∧
      (run cfgPoll [Event.mount]).inFlight ≠ 0 ∧
      (run cfgPoll [Event.mount]).mounted = true ∧
      isNullish (JVal.num 5) = false ∧
      truthy (jget (JVal.num 5) "dimensions") = false ∧
      truthy (jget (JVal.num 5) "vector") = false) ∧
    (wsMessageStep (run cfgWs [Event.mount, Event.wsOpen])
        (JVal.str "hello") "t").current =
      (run cfgWs [Event.mount, Event.wsOpen]).current ∧
    fetchResolveStep (run cfgPoll [Event.mount]) true 200 (JVal.num 5) "t" =
      { run cfgPoll [Event.mount] with
          inFlight := (run cfgPoll [Event.mount]).inFlight - 1
          current := some (emptyDimsVector (JVal.num 5) "t")
          history := histAppend (emptyDimsVector (JVal.num 5) "t")
            (run cfgPoll [Event.mount]).history
          updates := (run cfgPoll [Event.mount]).updates ++
            [emptyDimsVector (JVal.num 5) "t"]
          statusMessage := "HTTP OK" } ∧
    fetchResolveStep (run cfgPoll [Event.mount]) true 200 JVal.null "t" =
      { run cfgPoll [Event.mount] with
          inFlight := (run cfgPoll [Event.mount]).inFlight - 1
          statusMessage := "HTTP error" } :=
  ⟨⟨by decide, by decide, by decide, by decide, by decide, by decide⟩,
    (payload_rejection_behavior.1 (run cfgWs [Event.mount, Event.wsOpen])
      (JVal.str "hello") "t" (by decide)).1,
    payload_rejection_behavior.2.1 (run cfgPoll [Event.mount]) 200
      (JVal.num 5) "t" (by decide) (by decide) (by decide) (by decide)
      (by decide),
    payload_rejection_behavior.2.2 (run cfgPoll [Event.mount]) 200 "t"
      (by decide)⟩

/-- The dimension object the fetch path builds from a raw-number vector
element. -/
def dimZeroObj : JVal :=
  .obj [("name", .str "dim"), ("value", .num 0)]

/-- Every raw number in a legacy `vector` array maps to the same
`name "dim"`, `value 0` object. -/
theorem mapVecList_nums : ∀ xs : List Int,
    mapVecList (xs.map JVal.num) = some (xs.map fun _ => dimZeroObj)
  | [] => rfl
  | x :: xs => by
      have ih := mapVecList_nums xs
      simp only [List.map_cons, mapVecList, ih]
      rfl

/-- C6 (amended): a poll body with no `dimensions` field and a `vector`
array of raw numbers is mapped elementwise by
`{ name: v.name || v.label || "dim", value: Number(v.value ?? 0) }`, which
for raw numbers yields name `dim` and value 0 for every element; the names
`dim0, dim1, …` are never synthesized and the numeric values are
discarded. -/
theorem legacy_vector_mapping (xs : List Int) :
    fetchDims (JVal.obj [("vector", JVal.arr (xs.map JVal.num))]) =
      some (JVal.arr (xs.map fun _ => dimZeroObj)) := by
  have h0 : fetchDims (JVal.obj [("vector", JVal.arr (xs.map JVal.num))]) =
      (mapVecList (xs.map JVal.num)).map JVal.arr := rfl
  rw [h0, mapVecList_nums xs]
  rfl

/-- C6 counterexample: polling body `(vector := [3, 7])` stores the vector
`[(dim, 0), (dim, 0)]`, not `[(dim0, 3), (dim1, 7)]`. -/
theorem legacy_vector_counterexample :
    (run cfgPoll [Event.mount,
        Event.fetchResolve true 200 (JVal.obj [("vector",
          JVal.arr [JVal.num 3, JVal.num 7])]) "t"]).current =
      some { timestamp := JVal.str "t",
             dimensions := JVal.arr [dimZeroObj, dimZeroObj],
             visualState := JVal.undefined, emoji := JVal.undefined } ∧
    jget dimZeroObj "name" = JVal.str "dim" ∧
    JVal.str "dim" ≠ JVal.str "dim0" ∧
    jget dimZeroObj "value" = JVal.num 0 ∧
    JVal.num 0 ≠ JVal.num 3 :=
  ⟨rfl, rfl, fun h => absurd (JVal.str.inj h) (by decide),
    rfl, fun h => absurd (JVal.num.inj h) (by decide)⟩

/-- C7 counterexample: with polling configured, the interval fires while
the first request is still unsettled and a second request is issued — two
polls in flight at once. -/
theorem poll_overlap_counterexample :
    (run cfgPoll [Event.mount, Event.pollTick]).inFlight = 2 := by decide

/-- C7 (amended): each firing of the poll interval issues a new request
unconditionally — `fetchOnce` has no check that the previous request has
settled — so in-flight requests accumulate under slow responses. -/
theorem poll_tick_increments (cfg : Config) (s : CompState)
    (hp : s.pollingActive = true) (hf : cfg.fetchApiUrl.isSome = true)
    (hw : cfg.walletAddress.isSome = true) :
    (pollTickStep cfg s).inFlight = s.inFlight + 1 := by
  obtain ⟨u, hu⟩ := Option.isSome_iff_exists.mp hf
  obtain ⟨w, hww⟩ := Option.isSome_iff_exists.mp hw
  simp [pollTickStep, hp, fetchOnceStart, hu, hww]

/-- C7 witness: the state after one mount of the poll-only configuration
has an in-flight request; the next tick makes it two. -/
theorem poll_tick_increments_witness :
    ((run cfgPoll [Event.mount]).pollingActive = true ∧
      cfgPoll.fetchApiUrl.isSome = true ∧ cfgPoll.walletAddress.isSome = true) ∧
    (pollTickStep cfgPoll (run cfgPoll [Event.mount])).inFlight =
      (run cfgPoll [Event.mount]).inFlight + 1 :=
  ⟨⟨by decide, by decide, by decide⟩,
    poll_tick_increments cfgPoll _ (by decide) (by decide) (by decide)⟩

/-- Per-event frame lemma for C4: once the liveness flag is down, no
non-mount event changes the current vector, the history or the subscriber
log, and the flag stays down. -/
theorem step_unmounted_frame (cfg : Config) (s : CompState) (e : Event)
    (hm : s.mounted = false) (he : isMount e = false) :
    (step cfg s e).current = s.current ∧ (step cfg s e).history = s.history ∧
    (step cfg s e).updates = s.updates ∧ (step cfg s e).mounted = false := by
  cases e with
  | mount => simp [isMount] at he
  | unmount => simp [step, unmountStep, hm]
  | wsOpen => cases hws : s.wsSt <;> simp [step, wsOpenStep, hws, hm]
  | wsMessage payload now =>
      cases hws : s.wsSt
      case opened =>
        simp only [step, wsMessageStep, hws]
        split
        · rw [if_neg (by simp [hm])]
          simp [hm]
        · split <;> simp [hm]
      all_goals simp [step, wsMessageStep, hws, hm]
  | wsBadMessage => simp [step, hm]
  | wsClose => cases hws : s.wsSt <;> simp [step, wsCloseStep, hws, hm]
  | wsError => cases hws : s.wsSt <;> simp [step, wsErrorStep, hws, hm]
  | reconnectTimer =>
      simp only [step, reconnectStep]
      split
      · rw [if_neg (by simp [hm])]
        simp [hm]
      · simp [hm]
  | pollTick =>
      simp only [step, pollTickStep]
      split
      · cases hf : cfg.fetchApiUrl <;> cases hw : cfg.walletAddress <;>
          simp [fetchOnceStart, hf, hw, hm]
      · simp [hm]
  | fetchResolve ok code body now =>
      simp only [step, fetchResolveStep]
      split
      · simp [hm]
      · split
        · split
          · simp [hm]
          · split
            · simp [hm]
            · rw [if_neg (by simp [hm])]
              simp [hm]
        · simp [hm]
  | fetchReject =>
      simp only [step, fetchRejectStep]
      split <;> simp [hm]

/-- C4 (amended): after the cleanup runs, no sequence of subsequent
external events — timer firings, delayed socket events, in-flight fetch
settlements — changes the current vector or the history, and no subscriber
callback fires; the status message, however, is not protected (see the
counterexample). -/
theorem dispose_frame (cfg : Config) (s : CompState) (evs : List Event)
    (hm : s.mounted = false)
    (he : (evs.all fun e => !isMount e) = true) :
    (List.foldl (step cfg) s evs).current = s.current ∧
    (List.foldl (step cfg) s evs).history = s.history ∧
    (List.foldl (step cfg) s evs).updates = s.updates := by
  induction evs generalizing s with
  | nil => exact ⟨rfl, rfl, rfl⟩
  | cons e evs ih =>
      rw [List.all_cons, Bool.and_eq_true] at he
      have hstep := step_unmounted_frame cfg s e hm (by simpa using he.1)
      have ihh := ih (step cfg s e) hstep.2.2.2 he.2
      rw [List.foldl_cons]
      exact ⟨ihh.1.trans hstep.1, ihh.2.1.trans hstep.2.1,
        ihh.2.2.trans hstep.2.2.1⟩

/-- C4 witness: after mount, open and cleanup, the events close, reconnect
timer, poll timer and a rejected fetch leave vector, history and the
subscriber log untouched. -/
theorem dispose_frame_witness :
    ((run cfgWs [Event.mount, Event.wsOpen, Event.unmount]).mounted = false ∧
      (([Event.wsClose, Event.reconnectTimer, Event.pollTick,
          Event.fetchReject].all fun e => !isMount e) = true)) ∧
    ((List.foldl (step cfgWs)
        (run cfgWs [Event.mount, Event.wsOpen, Event.unmount])
        [Event.wsClose, Event.reconnectTimer, Event.pollTick,
          Event.fetchReject]).current =
      (run cfgWs [Event.mount, Event.wsOpen, Event.unmount]).current ∧
    (List.foldl (step cfgWs)
        (run cfgWs [Event.mount, Event.wsOpen, Event.unmount])
        [Event.wsClose, Event.reconnectTimer, Event.pollTick,
          Event.fetchReject]).history =
      (run cfgWs [Event.mount, Event.wsOpen, Event.unmount]).history ∧
    (List.foldl (step cfgWs)
        (run cfgWs [Event.mount, Event.wsOpen, Event.unmount])
        [Event.wsClose, Event.reconnectTimer, Event.pollTick,
          Event.fetchReject]).updates =
      (run cfgWs [Event.mount, Event.wsOpen, Event.unmount]).updates) :=
  ⟨⟨by decide, by decide⟩,
    dispose_frame cfgWs (run cfgWs [Event.mount, Event.wsOpen, Event.unmount])
      [Event.wsClose, Event.reconnectTimer, Event.pollTick, Event.fetchReject]
      (by decide) (by decide)⟩

/-- C4 counterexample: the close event that the cleanup's own `ws.close()`
triggers arrives after disposal and still changes the component's status
state, because the close handler has no liveness guard. -/
theorem dispose_status_counterexample :
    (run cfgWs [Event.mount, Event.wsOpen, Event.unmount]).statusMessage =
      "Connected. Subscribing to mind vector updates…" ∧
    (run cfgWs [Event.mount, Event.wsOpen, Event.unmount,
        Event.wsClose]).statusMessage =
      "WebSocket closed. Falling back to HTTP." ∧
    ("Connected. Subscribing to mind vector updates…" : String) ≠
      "WebSocket closed. Falling back to HTTP." :=
  ⟨rfl, rfl, by decide⟩

/-- Head of an append with a nonempty left part. -/
theorem head_append_of_ne {α : Type} (l l2 : List α) (h : l ≠ []) :
    (l ++ l2).head? = l.head? := by
  cases l with
  | nil => exact absurd rfl h
  | cons a t => rfl

/-- Monotone case of the C8 invariant: a step that does not touch the send
log and does not newly open the socket preserves it. -/
theorem sub_first_mono {cfg : Config} {s t : CompState}
    (h1 : s.sent = [] ∨
      s.sent.head? = some (subscribeMsg (cfg.walletAddress.getD "")))
    (h2 : s.wsSt = WsSt.opened → s.sent ≠ [])
    (hsent : t.sent = s.sent)
    (hws : t.wsSt = WsSt.opened → s.wsSt = WsSt.opened) :
    (t.sent = [] ∨
      t.sent.head? = some (subscribeMsg (cfg.walletAddress.getD ""))) ∧
    (t.wsSt = WsSt.opened → t.sent ≠ []) :=
  ⟨by rw [hsent]; exact h1, fun ho => by rw [hsent]; exact h2 (hws ho)⟩

/-- Per-event C8 invariant preservation: whatever the event, the first
message ever sent is the subscribe handshake, and an open socket has
already sent it. -/
theorem step_sub_first (cfg : Config) (s : CompState) (e : Event)
    (h1 : s.sent = [] ∨
      s.sent.head? = some (subscribeMsg (cfg.walletAddress.getD "")))
    (h2 : s.wsSt = WsSt.opened → s.sent ≠ []) :
    ((step cfg s e).sent = [] ∨
      (step cfg s e).sent.head? =
        some (subscribeMsg (cfg.walletAddress.getD ""))) ∧
    ((step cfg s e).wsSt = WsSt.opened → (step cfg s e).sent ≠ []) := by
  cases e with
  | mount =>
      refine sub_first_mono h1 h2 ?_ ?_ <;>
        simp only [step, mountStep, connectWebSocket, fetchOnceStart] <;>
        cases cfg.websocketUrl <;> cases cfg.walletAddress <;>
        cases cfg.fetchApiUrl <;> simp
  | unmount =>
      refine sub_first_mono h1 h2 rfl ?_
      simp only [step, unmountStep]
      cases hws0 : s.wsSt <;> simp
  | wsOpen =>
      cases hws0 : s.wsSt
      case connecting =>
        simp only [step, wsOpenStep, hws0]
        refine ⟨Or.inr ?_, fun _ => by simp⟩
        rcases h1 with hnil | hhead
        · rw [hnil]
          rfl
        · have hne : s.sent ≠ [] := fun h0 => by
            rw [h0] at hhead
            cases hhead
          rw [head_append_of_ne _ _ hne]
          exact hhead
      all_goals refine sub_first_mono h1 h2 ?_ ?_ <;>
        simp [step, wsOpenStep, hws0]
  | wsMessage payload now =>
      cases hws0 : s.wsSt
      case opened =>
        simp only [step, wsMessageStep, hws0]
        split
        · split
          · exact sub_first_mono h1 h2 rfl (fun _ => hws0)
          · exact sub_first_mono h1 h2 rfl (fun _ => hws0)
        · split
          · have hne := h2 hws0
            refine ⟨Or.inr ?_, fun _ => by simp⟩
            rw [head_append_of_ne _ _ hne]
            rcases h1 with hnil | hhead
            · exact absurd hnil hne
            · exact hhead
          · exact sub_first_mono h1 h2 rfl (fun _ => hws0)
      all_goals refine sub_first_mono h1 h2 ?_ ?_ <;>
        simp [step, wsMessageStep, hws0]
  | wsBadMessage => exact sub_first_mono h1 h2 rfl (fun h => h)
  | wsClose =>
      refine sub_first_mono h1 h2 ?_ ?_ <;>
        simp only [step, wsCloseStep] <;> cases hws0 : s.wsSt <;> simp [hws0]
  | wsError =>
      refine sub_first_mono h1 h2 ?_ ?_ <;>
        simp only [step, wsErrorStep] <;> cases hws0 : s.wsSt <;> simp [hws0]
  | reconnectTimer =>
      refine sub_first_mono h1 h2 ?_ ?_ <;>
        simp only [step, reconnectStep, connectWebSocket] <;>
        split <;> (try split) <;>
        cases cfg.websocketUrl <;> cases cfg.walletAddress <;> simp
  | pollTick =>
      refine sub_first_mono h1 h2 ?_ ?_ <;>
        simp only [step, pollTickStep, fetchOnceStart] <;>
        split <;> cases cfg.fetchApiUrl <;> cases cfg.walletAddress <;> simp
  | fetchResolve ok code body now =>
      refine sub_first_mono h1 h2 ?_ ?_ <;>
        simp only [step, fetchResolveStep] <;>
        split <;> (try split) <;> (try split) <;> (try split) <;>
        (try split) <;> (try simp)
  | fetchReject =>
      refine sub_first_mono h1 h2 ?_ ?_ <;>
        simp only [step, fetchRejectStep] <;> split <;> simp

/-- C8 (amended): in every reachable state the first outbound message, if
any, is the subscribe handshake `(type subscribe, topic mindVector,
wallet id)` — topic `mindVector` and key `wallet`, not `stateVector` and
`subject` — and the open event on a connecting socket appends exactly that
handshake to the send log, so it precedes any pong. -/
theorem subscribe_first (cfg : Config) (evs : List Event) :
    ((run cfg evs).sent = [] ∨
      (run cfg evs).sent.head? =
        some (subscribeMsg (cfg.walletAddress.getD ""))) ∧
    ∀ s : CompState, s.wsSt = WsSt.connecting →
      (wsOpenStep cfg s).sent =
        s.sent ++ [subscribeMsg (cfg.walletAddress.getD "")] := by
  constructor
  · have main : ((run cfg evs).sent = [] ∨
        (run cfg evs).sent.head? =
          some (subscribeMsg (cfg.walletAddress.getD ""))) ∧
        ((run cfg evs).wsSt = WsSt.opened → (run cfg evs).sent ≠ []) := by
      rw [run]
      induction evs using List.reverseRecOn with
      | nil => exact ⟨Or.inl rfl, fun h => WsSt.noConfusion h⟩
      | append_singleton l e ih =>
          rw [List.foldl_append, List.foldl_cons, List.foldl_nil]
          exact step_sub_first cfg _ e ih.1 ih.2
    exact main.1
  · intro s hws
    simp [wsOpenStep, hws]

/-- C8 witness: after mounting the push configuration the socket is
connecting, and the open event sends the handshake as the first message. -/
theorem subscribe_first_witness :
    ((run cfgWs [Event.mount]).wsSt = WsSt.connecting ∧
      ((run cfgWs [Event.mount, Event.wsOpen]).sent = [] ∨
        (run cfgWs [Event.mount, Event.wsOpen]).sent.head? =
          some (subscribeMsg (cfgWs.walletAddress.getD "")))) ∧
    (wsOpenStep cfgWs (run cfgWs [Event.mount])).sent =
      (run cfgWs [Event.mount]).sent ++
        [subscribeMsg (cfgWs.walletAddress.getD "")] :=
  ⟨⟨by decide, (subscribe_first cfgWs [Event.mount, Event.wsOpen]).1⟩,
    (subscribe_first cfgWs []).2 (run cfgWs [Event.mount]) (by decide)⟩

/-- C8 counterexample: the handshake actually sent has topic `mindVector`
under key `topic` and the subject under key `wallet`; it is not the claimed
`(type subscribe, topic stateVector, subject id)` message. -/
theorem subscribe_topic_counterexample :
    (run cfgWs [Event.mount, Event.wsOpen]).sent = [subscribeMsg "w1"] ∧
    jget (subscribeMsg "w1") "topic" = JVal.str "mindVector" ∧
    JVal.str "mindVector" ≠ JVal.str "stateVector" ∧
    jget (subscribeMsg "w1") "subject" = JVal.undefined ∧
    jget (subscribeMsg "w1") "wallet" = JVal.str "w1" :=
  ⟨rfl, rfl, fun h => absurd (JVal.str.inj h) (by decide), rfl, rfl⟩

/-- A passing `===` test against a string literal pins the value down. -/
theorem isStr_eq {v : JVal} {t : String} (h : isStr v t = true) :
    v = JVal.str t := by
  cases v <;> simp only [isStr] at h
  case str s => simp at h; rw [h]
  all_goals cases h

/-- An inbound message carrying a ping payload. -/
def pingPayload : JVal := .obj [("type", .str "ping")]

/-- C9: a push message whose payload has type `ping` on an open socket
produces exactly one pong reply and nothing else — the connection stays
open and the current vector, history, status and subscriber log are those
of the state before the message. -/
theorem ping_pong (cfg : Config) (s : CompState) (payload : JVal)
    (now : String) (hopen : s.wsSt = WsSt.opened)
    (hping : isStr (jget payload "type") "ping" = true) :
    step cfg s (Event.wsMessage payload now) =
      { s with sent := s.sent ++ [pongMsg] } := by
  have hty := isStr_eq hping
  have h1 : isStr (JVal.str "ping") "mindVectorUpdate" = false := rfl
  have h2 : isStr (JVal.str "ping") "ping" = true := rfl
  simp [step, wsMessageStep, hopen, hty, h1, h2]

/-- C9 witness: a concrete ping on the opened socket of the push
configuration appends exactly one pong to the send log. -/
theorem ping_pong_witness :
    ((run cfgWs [Event.mount, Event.wsOpen]).wsSt = WsSt.opened ∧
      isStr (jget pingPayload "type") "ping" = true) ∧
    step cfgWs (run cfgWs [Event.mount, Event.wsOpen])
        (Event.wsMessage pingPayload "t") =
      { run cfgWs [Event.mount, Event.wsOpen] with
          sent := (run cfgWs [Event.mount, Event.wsOpen]).sent ++ [pongMsg] } :=
  ⟨⟨by decide, by decide⟩,
    ping_pong cfgWs (run cfgWs [Event.mount, Event.wsOpen]) pingPayload "t"
      (by decide) (by decide)⟩

/-- Per-event preservation for C10: every step keeps the current vector
equal to the head of the history. -/
theorem step_current_head (cfg : Config) (s : CompState) (e : Event)
    (h : s.current = s.history.head?) :
    (step cfg s e).current = (step cfg s e).history.head? := by
  cases e with
  | mount =>
      simp only [step, mountStep, connectWebSocket, fetchOnceStart]
      cases cfg.websocketUrl <;> cases cfg.walletAddress <;>
        cases cfg.fetchApiUrl <;> exact h
  | unmount => exact h
  | wsOpen => cases hws : s.wsSt <;> simp only [step, wsOpenStep, hws] <;> exact h
  | wsMessage payload now =>
      cases hws : s.wsSt
      case opened =>
        simp only [step, wsMessageStep, hws]
        split
        · split
          · rfl
          · exact h
        · split
          · exact h
          · exact h
      all_goals simp only [step, wsMessageStep, hws]
      all_goals exact h
  | wsBadMessage => exact h
  | wsClose => cases hws : s.wsSt <;> simp only [step, wsCloseStep, hws] <;> exact h
  | wsError => cases hws : s.wsSt <;> simp only [step, wsErrorStep, hws] <;> exact h
  | reconnectTimer =>
      simp only [step, reconnectStep, connectWebSocket]
      split <;> (try split) <;>
        cases cfg.websocketUrl <;> cases cfg.walletAddress <;> exact h
  | pollTick =>
      simp only [step, pollTickStep, fetchOnceStart]
      split <;> cases cfg.fetchApiUrl <;> cases cfg.walletAddress <;> exact h
  | fetchResolve ok code body now =>
      simp only [step, fetchResolveStep]
      split
      · exact h
      · split
        · split
          · exact h
          · split
            · exact h
            · split
              · rfl
              · exact h
        · exact h
  | fetchReject =>
      simp only [step, fetchRejectStep]
      split <;> exact h

/-- C10: in every reachable state — in particular after every accepted
update on either the push or the fetch path — the exposed current vector
equals the head of the history buffer, so a non-empty history implies a
non-null current equal to its first (newest) entry. -/
theorem current_matches_history_head (cfg : Config) (evs : List Event) :
    (run cfg evs).current = (run cfg evs).history.head? := by
  rw [run]
  induction evs using List.reverseRecOn with
  | nil => rfl
  | append_singleton l e ih =>
      rw [List.foldl_append, List.foldl_cons, List.foldl_nil]
      exact step_current_head cfg _ e ih
